import Mathlib

/-!
Verification of the world-map / lore-wiki backend (`main.py`, `schemas.py`).

Documents of the MongoDB store are modelled as Python dicts: association
lists from string keys to a small universe of JSON-like values.  Each
collection is a list of documents in insertion order.  Floats are modelled
as rationals, MongoDB ObjectIds as their 24-character lowercase hex string.
Endpoint handlers become pure functions from the request payload and the
relevant collection state to the new collection state and a response;
a raised `HTTPException(code)` becomes `Except.error code`.
-/

namespace WorldMap

/-- JSON-like values stored in documents (Python dict values). -/
inductive Value where
  | vStr : String → Value
  | vNum : ℚ → Value
  | vInt : Int → Value
  | vBool : Bool → Value
  | vNull : Value
  | vStrList : List String → Value
  | vId : String → Value
deriving DecidableEq

/-- Python truthiness of a value.  A bson ObjectId instance is always
truthy. -/
def truthy : Value → Bool
  | .vStr s => s ≠ ""
  | .vNum q => q ≠ 0
  | .vInt n => n ≠ 0
  | .vBool b => b
  | .vNull => false
  | .vStrList xs => xs ≠ []
  | .vId _ => true

/-- Python `str(value)`.  Applied to an ObjectId it yields the 24-char
hex string; applied to None it yields the string None.  (The float and
list cases never arise on the paths it is applied to in main.py and are
nominal.) -/
def pyStr : Value → String
  | .vStr s => s
  | .vId s => s
  | .vInt n => toString n
  | .vNull => "None"
  | .vBool b => if b then "True" else "False"
  | .vNum q => toString q
  | .vStrList xs => String.intercalate "," xs

/-- A document: a Python dict with string keys (keys unique, insertion
order preserved). -/
abbrev Doc := List (String × Value)

/-- Python dict `d.get(k)` — `none` models a Python None for an absent key. -/
def dget (d : Doc) (k : String) : Option Value :=
  (d.find? (fun p => p.1 == k)).map Prod.snd

/-- Python dict `d.get(k)` where the route treats an absent key as JSON null. -/
def dgetOrNull (d : Doc) (k : String) : Value :=
  (dget d k).getD Value.vNull

/-- Python dict assignment `d[k] = v`: overwrite in place when the key
exists (the first occurrence — keys of a dict are unique), else append
(assignment keeps the original key position). -/
def dset : Doc → String → Value → Doc
  | [], k, v => [(k, v)]
  | p :: rest, k, v =>
      if p.1 == k then (k, v) :: rest else p :: dset rest k v

/-- Python dict `d.pop(k)` (the removal part). -/
def dremove (d : Doc) (k : String) : Doc :=
  d.filter (fun p => p.1 != k)

/-- Helper `oid_str` (main.py:23): both branches are `str(value)`. -/
def oid_str : Option Value → String
  | some v => pyStr v
  | none => "None"

/-- Helper `doc_to_public` (main.py:27) on a non-None dict: when `_id` is present
and truthy, pop it and append `id` bound to its string form. -/
def doc_to_public (d : Doc) : Doc :=
  if d = [] then d
  else
    match dget d "_id" with
    | some v =>
        if truthy v then dset (dremove d "_id") "id" (Value.vStr (pyStr v))
        else d
    | none => d

/-- Variant of `doc_to_public` applied to a find-one result that may be a
Python None. -/
def docToPublicOpt : Option Doc → Option Doc
  | none => none
  | some d => some (doc_to_public d)

/-- A collection: its documents in insertion order. -/
abbrev Coll := List Doc

/-- Modelled from the spec: `database.py` is absent from `src/`; per §4.1
`create(collection, record) -> id` validates upstream, inserts the record
and returns the newly assigned store-generated unique id.  The fresh
ObjectId is a parameter; the store binds it to `_id` on the inserted
document. -/
def create_document (coll : Coll) (doc : Doc) (fresh : String) : Coll × String :=
  (coll ++ [dset doc "_id" (Value.vId fresh)], fresh)

/-- Modelled from the spec: the function `get_documents` of the absent
`database.py`, per §4.1
`list(collection)` returns all documents in insertion order. -/
def get_documents (coll : Coll) : List Doc := coll

/-- Mongo find-one filtered on `_id`: the first document whose `_id` is
the given ObjectId. -/
def find_one_by_id (coll : Coll) (oid : String) : Option Doc :=
  coll.find? (fun d => dget d "_id" == some (Value.vId oid))

/-- Mongo delete-one filtered on `_id`: remove the first matching
document; no-op when none matches. -/
def delete_one : Coll → String → Coll
  | [], _ => []
  | d :: rest, oid =>
      if dget d "_id" == some (Value.vId oid) then rest
      else d :: delete_one rest oid

/-- Number of documents matching an id (the unique `_id` index of the
store keeps this at most 1 in reachable states). -/
def matchCount (coll : Coll) (oid : String) : Nat :=
  (coll.filter (fun d => dget d "_id" == some (Value.vId oid))).length

/-- MongoDB `$set`: merge the update fields into a document, left to
right; an existing key is overwritten in place, a new key is appended. -/
def mergeDoc (d : Doc) (fields : Doc) : Doc :=
  fields.foldl (fun acc kv => dset acc kv.1 kv.2) d

/-- Mongo update-one filtered on `_id` with a set-merge: merge into the
first matching document; at most one document is modified, none is
inserted. -/
def update_one : Coll → String → Doc → Coll
  | [], _, _ => []
  | d :: rest, oid, fields =>
      if dget d "_id" == some (Value.vId oid) then mergeDoc d fields :: rest
      else d :: update_one rest oid fields

/-- Hex digit accepted by `bson.ObjectId` (case-insensitive). -/
def isHexChar (c : Char) : Bool :=
  c.isDigit || ('a' ≤ c && c ≤ 'f') || ('A' ≤ c && c ≤ 'F')

/-- A string accepted by the `ObjectId` constructor: exactly 24 hex
characters. -/
def isValidOidStr (s : String) : Bool :=
  s.length == 24 && s.toList.all isHexChar

/-- ASCII lowercase of one character. -/
def lowerChar (c : Char) : Char :=
  if 'A' ≤ c && c ≤ 'Z' then Char.ofNat (c.toNat + 32) else c

/-- ASCII lowercase of a string (the hex alphabet is all that matters
here). -/
def strLower (s : String) : String :=
  String.mk (s.data.map lowerChar)

/-- Parsing `ObjectId(article_id)` in a try/except: `none` models the raised
`InvalidId`; on success the id is normalized to its lowercase hex form
(`ObjectId` compares and prints case-insensitively). -/
def parseObjectId (s : String) : Option String :=
  if isValidOidStr s then some (strLower s) else none

/-! ### Auth guard (main.py:36–57, 149–155)

`TOKENS` is the process-wide set of issued tokens, modelled as a list
without duplicates via `List.insert`; `ADMIN_USERNAME` / `ADMIN_PASSWORD`
are the configured credentials (environment values with defaults), passed
as parameters. -/

/-- Guard `require_admin` (main.py:54): 401 when the `token` query parameter is
absent or not in `TOKENS`; otherwise returns `True`. -/
def require_admin (tokens : List String) (token : Option String) :
    Except Nat Bool :=
  match token with
  | none => .error 401
  | some t => if t ∈ tokens then .ok true else .error 401

/-- Handler `admin_login` (main.py:149): on matching credentials, add a fresh
opaque token (the `os.urandom(16).hex()` value is a parameter) to
`TOKENS` and return it; otherwise 401. -/
def admin_login (adminUsername adminPassword : String)
    (tokens : List String) (username password : String) (fresh : String) :
    List String × Except Nat String :=
  if username = adminUsername ∧ password = adminPassword then
    (tokens.insert fresh, .ok fresh)
  else (tokens, .error 401)

/-! ### Entity payloads (schemas.py) and their pydantic dumps -/

/-- Wrap a Python `Optional[str]` as a stored value. -/
def optStr : Option String → Value
  | some s => .vStr s
  | none => .vNull

/-- Wrap a Python `Optional[int]` as a stored value. -/
def optInt : Option Int → Value
  | some n => .vInt n
  | none => .vNull

/-- Schema `POI` / `POICreate` (schemas.py:26): request body after pydantic type
coercion, before the `ge`/`le` range checks. -/
structure POIPayload where
  name : String
  x_coordinate : ℚ
  y_coordinate : ℚ
  icon_type : String
  lore_article_id : Option String
deriving DecidableEq

/-- The `ge=0, le=1` constraints on both coordinates (schemas.py:28–29);
FastAPI enforces them before the handler runs and answers 422 on
failure. -/
def validPOIPayload (p : POIPayload) : Bool :=
  decide (0 ≤ p.x_coordinate) && decide (p.x_coordinate ≤ 1) &&
  decide (0 ≤ p.y_coordinate) && decide (p.y_coordinate ≤ 1)

/-- Dump `payload.model_dump()` for a POI, in field declaration order. -/
def poiDump (p : POIPayload) : Doc :=
  [("name", .vStr p.name),
   ("x_coordinate", .vNum p.x_coordinate),
   ("y_coordinate", .vNum p.y_coordinate),
   ("icon_type", .vStr p.icon_type),
   ("lore_article_id", optStr p.lore_article_id)]

/-- Request body `MapAssetUpdate` (main.py:165). -/
structure MapAssetUpdate where
  image_url : String
  width : Option Int
  height : Option Int
deriving DecidableEq

/-- The `MapAsset` document built in `set_map` (schemas.py:34 field
order), dumped for insertion. -/
def mapAssetDump (p : MapAssetUpdate) (version : Int) : Doc :=
  [("image_url", .vStr p.image_url),
   ("width", optInt p.width),
   ("height", optInt p.height),
   ("version", .vInt version)]

/-- Schema `POIUpdate` (main.py:199): every field optional. -/
structure POIUpdate where
  name : Option String := none
  x_coordinate : Option ℚ := none
  y_coordinate : Option ℚ := none
  icon_type : Option String := none
  lore_article_id : Option String := none
deriving DecidableEq

/-- Schema `LoreUpdate` (main.py:249). -/
structure LoreUpdate where
  title : Option String := none
  short_description : Option String := none
  main_image_url : Option String := none
  content_body : Option String := none
  category_ids : Option (List String) := none
  slug : Option String := none
deriving DecidableEq

/-- Schema `CategoryUpdate` (main.py:300). -/
structure CategoryUpdate where
  name : Option String := none
  slug : Option String := none
  description : Option String := none
deriving DecidableEq

/-- One entry of `{k: v for k, v in payload.model_dump().items() if v is
not None}`. -/
def pickField (k : String) : Option Value → Doc
  | some v => [(k, v)]
  | none => []

/-- The `$set` document of `admin_update_poi` (main.py:213). -/
def updFieldsPOI (u : POIUpdate) : Doc :=
  pickField "name" (u.name.map .vStr) ++
  pickField "x_coordinate" (u.x_coordinate.map .vNum) ++
  pickField "y_coordinate" (u.y_coordinate.map .vNum) ++
  pickField "icon_type" (u.icon_type.map .vStr) ++
  pickField "lore_article_id" (u.lore_article_id.map .vStr)

/-- The `$set` document of `admin_update_lore` (main.py:264). -/
def updFieldsLore (u : LoreUpdate) : Doc :=
  pickField "title" (u.title.map .vStr) ++
  pickField "short_description" (u.short_description.map .vStr) ++
  pickField "main_image_url" (u.main_image_url.map .vStr) ++
  pickField "content_body" (u.content_body.map .vStr) ++
  pickField "category_ids" (u.category_ids.map .vStrList) ++
  pickField "slug" (u.slug.map .vStr)

/-- The `$set` document of `admin_update_category` (main.py:312). -/
def updFieldsCategory (u : CategoryUpdate) : Doc :=
  pickField "name" (u.name.map .vStr) ++
  pickField "slug" (u.slug.map .vStr) ++
  pickField "description" (u.description.map .vStr)

/-! ### Public read routes -/

/-- The projection applied to each stored POI by `get_pois`
(main.py:88–98). -/
def poiPublicEntry (p : Doc) : Doc :=
  [("id", .vStr (oid_str (dget p "_id"))),
   ("name", dgetOrNull p "name"),
   ("x_coordinate", dgetOrNull p "x_coordinate"),
   ("y_coordinate", dgetOrNull p "y_coordinate"),
   ("lore_article_id", dgetOrNull p "lore_article_id"),
   ("icon_type", (dget p "icon_type").getD (.vStr "marker"))]

/-- Route `GET /api/pois` (main.py:85). -/
def get_pois (coll : Coll) : List Doc :=
  (get_documents coll).map poiPublicEntry

/-- Handler of the dynamic lore article route (main.py:102): 400 on a
malformed id, 404 when absent, else the fixed public shape.  (The direct
subscript on the id key cannot miss when the stored document carries a
store-assigned `_id`; an absent key is rendered as null here.) -/
def get_lore_article (article_id : String) (coll : Coll) : Except Nat Doc :=
  match parseObjectId article_id with
  | none => .error 400
  | some oid =>
    match find_one_by_id coll oid with
    | none => .error 404
    | some doc =>
        let pub := doc_to_public doc
        .ok [("id", dgetOrNull pub "id"),
             ("title", dgetOrNull pub "title"),
             ("short_description", dgetOrNull pub "short_description"),
             ("main_image_url", dgetOrNull pub "main_image_url"),
             ("content_body", dgetOrNull pub "content_body")]

/-- Whether the first character list starts the second. -/
def charsStart : List Char → List Char → Bool
  | [], _ => true
  | _ :: _, [] => false
  | n :: ns, h :: hs => n == h && charsStart ns hs

/-- Whether the first character list occurs as a contiguous run of the
second. -/
def charsRun : List Char → List Char → Bool
  | needle, [] => needle.isEmpty
  | needle, h :: hs => charsStart needle (h :: hs) || charsRun needle hs

/-- Case-insensitive substring test: models the case-insensitive regex
match of `search_lore` for a query without regex metacharacters. -/
def containsCI (hay needle : String) : Bool :=
  charsRun needle.toLower.toList hay.toLower.toList

/-- Whether a stored field regex-matches the query (a non-string or
absent field never matches). -/
def fieldContainsCI (d : Doc) (k : String) (q : String) : Bool :=
  match dget d k with
  | some (.vStr s) => containsCI s q
  | _ => false

/-- The `$or` filter of `search_lore` (main.py:125). -/
def searchFilter (q : String) (d : Doc) : Bool :=
  fieldContainsCI d "title" q || fieldContainsCI d "short_description" q

/-- Handler body of `search_lore` (main.py:123): filter in natural store
order, limit 20, project to the three public fields. -/
def search_lore (q : String) (coll : Coll) : List Doc :=
  ((coll.filter (searchFilter q)).take 20).map (fun r =>
    [("id", .vStr (oid_str (dget r "_id"))),
     ("title", dgetOrNull r "title"),
     ("short_description", dgetOrNull r "short_description")])

/-- Which registered handler a request `GET /api/lore/<seg>` reaches.
main.py registers the dynamic article route (line 102) before the literal
`/api/lore/search` route (line 123); Starlette tries routes in
registration order and a path parameter matches any single segment, so
every such request — including `seg = "search"` — resolves to the article
handler, and the search handler is unreachable. -/
inductive LoreGetHandler where
  | articleRoute (article_id : String)
  | searchRoute
deriving DecidableEq

/-- Routing choice for a GET request on a lore path segment. -/
def matchLoreRoute (seg : String) : LoreGetHandler :=
  LoreGetHandler.articleRoute seg

/-- Full dispatch of `GET /api/lore/<seg>?q=...`: route, then run the
selected handler (a list response is rendered as an `.ok` body). -/
def apiLoreGet (seg : String) (q : String) (coll : Coll) : Except Nat Doc :=
  match matchLoreRoute seg with
  | .articleRoute aid => get_lore_article aid coll
  | .searchRoute => .ok [("results", .vInt (Int.ofNat (search_lore q coll).length))]

/-- The integer `version` of a stored map asset, read with default 0 on
an absent key (on reachable states the key is always an integer). -/
def docVersion (d : Doc) : Int :=
  match dget d "version" with
  | some (.vInt n) => n
  | _ => 0

/-- The latest map asset: find-one sorted by `version` descending
(main.py:143, 161, 173) — a document with the maximal `version`, the
earliest such on ties. -/
def mapFindLatest : Coll → Option Doc
  | [] => none
  | d :: rest =>
      match mapFindLatest rest with
      | none => some d
      | some b => if docVersion b > docVersion d then some b else some d

/-- Route `GET /api/map` (main.py:141): reshape the latest asset, null
when the collection is empty. -/
def public_get_map (coll : Coll) : Option Doc :=
  match mapFindLatest coll with
  | some doc => some (doc_to_public doc)
  | none => none

/-- Route `GET /api/admin/map` (main.py:159): same body as the public
route. -/
def get_map (coll : Coll) : Option Doc :=
  match mapFindLatest coll with
  | some doc => some (doc_to_public doc)
  | none => none

/-! ### Admin write routes -/

/-- The version computed at main.py:173–174: the version of the latest
asset (read with default 0) plus 1, and 1 when the collection is empty. -/
def versionNext (coll : Coll) : Int :=
  match mapFindLatest coll with
  | some c => docVersion c + 1
  | none => 1

/-- Route `POST /api/admin/map` (main.py:171): build the next-version
asset, insert, re-fetch, reshape. -/
def set_map (p : MapAssetUpdate) (coll : Coll) (fresh : String) :
    Coll × Option Doc :=
  let ins := create_document coll (mapAssetDump p (versionNext coll)) fresh
  let created := find_one_by_id ins.1 ins.2
  (ins.1, docToPublicOpt created)

/-- Route `POST /api/admin/pois` (main.py:192), including the pydantic range
validation FastAPI performs before the handler (422 on failure, handler
never entered).  The middle component counts store write calls issued. -/
def admin_create_poi (p : POIPayload) (coll : Coll) (fresh : String) :
    Coll × Nat × Except Nat (Option Doc) :=
  if validPOIPayload p then
    let ins := create_document coll (poiDump p) fresh
    let created := find_one_by_id ins.1 ins.2
    (ins.1, 1, .ok (docToPublicOpt created))
  else (coll, 0, .error 422)

/-- Response of an update route: the literal `{"updated": False}` body or
the reshaped re-fetched document (null when the re-fetch finds none). -/
inductive UpdResp where
  | updatedFalse
  | body (d : Option Doc)
deriving DecidableEq

/-- Shared body of the three admin PUT-by-id handlers
(main.py:207, 258, 306 — textually identical up to collection): parse the
id (400 when malformed), drop `None` fields, answer `updated: False`
without touching the store when nothing remains, else `$set`-merge,
re-fetch and reshape.  The middle component counts store write calls. -/
def update_route (pid : String) (fields : Doc) (coll : Coll) :
    Coll × Nat × Except Nat UpdResp :=
  match parseObjectId pid with
  | none => (coll, 0, .error 400)
  | some oid =>
    if fields = [] then (coll, 0, .ok .updatedFalse)
    else
      let coll' := update_one coll oid fields
      (coll', 1, .ok (.body (docToPublicOpt (find_one_by_id coll' oid))))

/-- Route `PUT /api/admin/pois/...` (main.py:207). -/
def admin_update_poi (pid : String) (u : POIUpdate) (coll : Coll) :
    Coll × Nat × Except Nat UpdResp :=
  update_route pid (updFieldsPOI u) coll

/-- Route `PUT /api/admin/lore/...` (main.py:258). -/
def admin_update_lore (pid : String) (u : LoreUpdate) (coll : Coll) :
    Coll × Nat × Except Nat UpdResp :=
  update_route pid (updFieldsLore u) coll

/-- Route `PUT /api/admin/categories/...` (main.py:306). -/
def admin_update_category (pid : String) (u : CategoryUpdate) (coll : Coll) :
    Coll × Nat × Except Nat UpdResp :=
  update_route pid (updFieldsCategory u) coll

/-- Shared body of the three admin DELETE-by-id handlers
(main.py:221, 272, 320 — textually identical up to collection): parse the
id (400 when malformed), `delete_one`, acknowledge. -/
def delete_route (pid : String) (coll : Coll) : Coll × Except Nat Doc :=
  match parseObjectId pid with
  | none => (coll, .error 400)
  | some oid => (delete_one coll oid, .ok [("deleted", .vBool true)])

/-- Route `DELETE /api/admin/pois/...` (main.py:221). -/
def admin_delete_poi (pid : String) (coll : Coll) : Coll × Except Nat Doc :=
  delete_route pid coll

/-- Route `DELETE /api/admin/lore/...` (main.py:272). -/
def admin_delete_lore (pid : String) (coll : Coll) : Coll × Except Nat Doc :=
  delete_route pid coll

/-- Route `DELETE /api/admin/categories/...` (main.py:320). -/
def admin_delete_category (pid : String) (coll : Coll) : Coll × Except Nat Doc :=
  delete_route pid coll

/-! ### Dictionary lemmas -/

theorem dget_dset_self (d : Doc) (k : String) (v : Value) :
    dget (dset d k v) k = some v := by
  induction d with
  | nil => simp [dget, dset]
  | cons p rest ih =>
      by_cases hp : p.1 == k
      · simp [dget, dset, hp, List.find?_cons]
      · simpa [dget, dset, hp, List.find?_cons] using ih

theorem dget_dset_ne (d : Doc) (k k' : String) (v : Value) (h : k' ≠ k) :
    dget (dset d k v) k' = dget d k' := by
  have hkk : (k == k') = false := beq_eq_false_iff_ne.mpr fun hc => h hc.symm
  induction d with
  | nil => simp [dget, dset, List.find?, hkk]
  | cons p rest ih =>
      by_cases hp : p.1 == k
      · have hpk : p.1 = k := by simpa using hp
        have hp' : (p.1 == k') = false := by rw [hpk]; exact hkk
        simp [dget, dset, hp, List.find?, hkk, hp']
      · have hpf : (p.1 == k) = false := by simpa using hp
        by_cases hq : p.1 == k'
        · simp [dget, dset, hpf, List.find?, hq]
        · have hq' : (p.1 == k') = false := by simpa using hq
          simpa [dget, dset, hpf, List.find?, hq'] using ih

theorem dget_dremove_self (d : Doc) (k : String) :
    dget (dremove d k) k = none := by
  have hfind : (dremove d k).find? (fun p => p.1 == k) = none := by
    rw [List.find?_eq_none]
    intro x hx
    have hne : x.1 != k := (List.mem_filter.mp hx).2
    simpa using hne
  simp [dget, hfind]

/-! ### Merge (`$set`) lemmas -/

theorem dget_mergeDoc (fields : Doc) (d : Doc) (k : String) :
    dget (mergeDoc d fields) k =
      ((fields.reverse.find? (fun p => p.1 == k)).map Prod.snd).or (dget d k) := by
  induction fields generalizing d with
  | nil => simp [mergeDoc]
  | cons kv fs ih =>
      have h1 : mergeDoc d (kv :: fs) = mergeDoc (dset d kv.1 kv.2) fs := rfl
      rw [h1, ih, List.reverse_cons, List.find?_append]
      cases hf : fs.reverse.find? (fun p => p.1 == k) with
      | some q => simp [hf]
      | none =>
          by_cases hk : kv.1 == k
          · have hkk : kv.1 = k := by simpa using hk
            subst hkk
            simp [hf, List.find?, dget_dset_self]
          · have hkf : (kv.1 == k) = false := by simpa using hk
            have hne : k ≠ kv.1 := fun hc => by simp [hc] at hkf
            simp [hf, List.find?, hkf, dget_dset_ne _ _ _ _ hne]

theorem dget_mergeDoc_not_mem (fields : Doc) (d : Doc) (k : String)
    (h : k ∉ fields.map Prod.fst) :
    dget (mergeDoc d fields) k = dget d k := by
  rw [dget_mergeDoc]
  have hf : fields.reverse.find? (fun p => p.1 == k) = none := by
    rw [List.find?_eq_none]
    intro x hx hc
    have hx' : x ∈ fields := List.mem_reverse.mp hx
    have hxk : x.1 = k := by simpa using hc
    exact h (hxk ▸ List.mem_map_of_mem Prod.fst hx')
  simp [hf]

/-- In an association list whose keys are distinct, lookup of a present
binding returns exactly that binding. -/
theorem find?_key_of_nodup (l : Doc) (hnd : (l.map Prod.fst).Nodup)
    (k : String) (v : Value) (h : (k, v) ∈ l) :
    l.find? (fun p => p.1 == k) = some (k, v) := by
  induction l with
  | nil => simp at h
  | cons p rest ih =>
      rcases List.mem_cons.mp h with rfl | hmem
      · simp [List.find?]
      · have hk : k ∈ rest.map Prod.fst := by
          simpa using List.mem_map_of_mem Prod.fst hmem
        rw [List.map_cons] at hnd
        obtain ⟨hnotin, hnd'⟩ := List.nodup_cons.mp hnd
        have hp : p.1 ≠ k := fun hc => hnotin (hc ▸ hk)
        have hpf : (p.1 == k) = false := by simpa using hp
        simp [List.find?, hpf, ih hnd' hmem]

theorem dget_mergeDoc_mem (fields : Doc) (d : Doc)
    (hnd : (fields.map Prod.fst).Nodup) (k : String) (v : Value)
    (h : (k, v) ∈ fields) :
    dget (mergeDoc d fields) k = some v := by
  rw [dget_mergeDoc]
  have hnd' : (fields.reverse.map Prod.fst).Nodup := by
    rw [List.map_reverse]
    exact List.nodup_reverse.mpr hnd
  have hfind := find?_key_of_nodup fields.reverse hnd' k v
    (List.mem_reverse.mpr h)
  simp [hfind]

/-! ### Store operation lemmas -/

theorem find_one_by_id_eq_none (coll : Coll) (oid : String)
    (h : ∀ d ∈ coll, dget d "_id" ≠ some (Value.vId oid)) :
    find_one_by_id coll oid = none := by
  unfold find_one_by_id
  rw [List.find?_eq_none]
  intro x hx
  simpa using h x hx

theorem find_one_by_id_append_new (coll : Coll) (nd : Doc) (oid : String)
    (h : ∀ d ∈ coll, dget d "_id" ≠ some (Value.vId oid))
    (hnd : dget nd "_id" = some (Value.vId oid)) :
    find_one_by_id (coll ++ [nd]) oid = some nd := by
  unfold find_one_by_id
  rw [List.find?_append]
  have h1 : coll.find? (fun d => dget d "_id" == some (Value.vId oid)) = none := by
    rw [List.find?_eq_none]
    intro x hx
    simpa using h x hx
  simp [h1, List.find?, hnd]

theorem update_one_no_match (coll : Coll) (oid : String) (fields : Doc)
    (h : ∀ d ∈ coll, dget d "_id" ≠ some (Value.vId oid)) :
    update_one coll oid fields = coll := by
  induction coll with
  | nil => rfl
  | cons d rest ih =>
      have hd : (dget d "_id" == some (Value.vId oid)) = false := by
        simpa using h d (by simp)
      simp [update_one, hd, ih fun e he => h e (by simp [he])]

theorem mem_update_one_of_ne (coll : Coll) (oid : String) (fields : Doc)
    (d : Doc) (hd : d ∈ coll)
    (hne : dget d "_id" ≠ some (Value.vId oid)) :
    d ∈ update_one coll oid fields := by
  induction coll with
  | nil => simp at hd
  | cons e rest ih =>
      by_cases he : (dget e "_id" == some (Value.vId oid)) = true
      · simp only [update_one, he, if_true]
        rcases List.mem_cons.mp hd with rfl | hmem
        · exact absurd (by simpa using he) hne
        · exact List.mem_cons_of_mem _ hmem
      · have hef : (dget e "_id" == some (Value.vId oid)) = false := by
          simpa using he
        simp only [update_one, hef, Bool.false_eq_true, if_false]
        rcases List.mem_cons.mp hd with rfl | hmem
        · exact List.mem_cons_self _ _
        · exact List.mem_cons_of_mem _ (ih hmem)

theorem find_one_by_id_update_one (coll : Coll) (oid : String) (fields : Doc)
    (hkeys : "_id" ∉ fields.map Prod.fst) :
    find_one_by_id (update_one coll oid fields) oid =
      (find_one_by_id coll oid).map (fun d => mergeDoc d fields) := by
  induction coll with
  | nil => rfl
  | cons e rest ih =>
      by_cases he : (dget e "_id" == some (Value.vId oid)) = true
      · have hm : dget (mergeDoc e fields) "_id" = dget e "_id" :=
          dget_mergeDoc_not_mem fields e "_id" hkeys
        have hm' : (dget (mergeDoc e fields) "_id" == some (Value.vId oid)) = true := by
          rw [hm]; exact he
        simp [update_one, find_one_by_id, List.find?, he, hm']
      · have hef : (dget e "_id" == some (Value.vId oid)) = false := by
          simpa using he
        simpa [update_one, find_one_by_id, List.find?, hef] using ih

theorem update_one_shape (coll : Coll) (oid : String) (fields : Doc)
    (d0 : Doc) (h : find_one_by_id coll oid = some d0) :
    ∃ pre post, coll = pre ++ d0 :: post ∧
      update_one coll oid fields = pre ++ mergeDoc d0 fields :: post ∧
      ∀ d ∈ pre, dget d "_id" ≠ some (Value.vId oid) := by
  induction coll with
  | nil => simp [find_one_by_id] at h
  | cons e rest ih =>
      by_cases he : (dget e "_id" == some (Value.vId oid)) = true
      · have he0 : e = d0 := by
          have : find_one_by_id (e :: rest) oid = some e := by
            simp [find_one_by_id, List.find?, he]
          rw [this] at h
          exact (Option.some.injEq _ _ ▸ h).symm ▸ rfl
        refine ⟨[], rest, by simp [he0], ?_, by simp⟩
        subst he0
        simp [update_one, he]
      · have hef : (dget e "_id" == some (Value.vId oid)) = false := by
          simpa using he
        have h' : find_one_by_id rest oid = some d0 := by
          simpa [find_one_by_id, List.find?, hef] using h
        obtain ⟨pre, post, hc, hu, hpre⟩ := ih h'
        refine ⟨e :: pre, post, by simp [hc], ?_, ?_⟩
        · simp [update_one, hef, hu]
        · intro d hd
          rcases List.mem_cons.mp hd with rfl | hmem
          · simpa using hef
          · exact hpre d hmem

theorem delete_one_no_match (coll : Coll) (oid : String)
    (h : matchCount coll oid = 0) :
    delete_one coll oid = coll := by
  induction coll with
  | nil => rfl
  | cons d rest ih =>
      by_cases hd : (dget d "_id" == some (Value.vId oid)) = true
      · exfalso
        simp [matchCount, List.filter, hd] at h
      · have hdf : (dget d "_id" == some (Value.vId oid)) = false := by
          simpa using hd
        have hrest : matchCount rest oid = 0 := by
          simpa [matchCount, List.filter, hdf] using h
        simp [delete_one, hdf, ih hrest]

theorem matchCount_delete_one (coll : Coll) (oid : String)
    (h : matchCount coll oid ≤ 1) :
    matchCount (delete_one coll oid) oid = 0 := by
  induction coll with
  | nil => simp [delete_one, matchCount]
  | cons d rest ih =>
      by_cases hd : (dget d "_id" == some (Value.vId oid)) = true
      · have hrest : matchCount rest oid = 0 := by
          have := h
          simp [matchCount, List.filter, hd] at this
          simpa [matchCount] using this
        simp [delete_one, hd, hrest]
      · have hdf : (dget d "_id" == some (Value.vId oid)) = false := by
          simpa using hd
        have hrest : matchCount rest oid ≤ 1 := by
          simpa [matchCount, List.filter, hdf] using h
        simp [delete_one, hdf, matchCount, List.filter, ih hrest]
        simpa [matchCount] using ih hrest

theorem delete_one_idem (coll : Coll) (oid : String)
    (h : matchCount coll oid ≤ 1) :
    delete_one (delete_one coll oid) oid = delete_one coll oid :=
  delete_one_no_match _ _ (matchCount_delete_one _ _ h)

/-! ### Latest-map lemmas -/

theorem mapFindLatest_eq_none (coll : Coll) :
    mapFindLatest coll = none ↔ coll = [] := by
  cases coll with
  | nil => simp [mapFindLatest]
  | cons d rest =>
      simp only [mapFindLatest]
      cases mapFindLatest rest with
      | none => simp
      | some b =>
          by_cases hb : docVersion b > docVersion d <;> simp [hb]

theorem mapFindLatest_mem (coll : Coll) (d : Doc)
    (h : mapFindLatest coll = some d) : d ∈ coll := by
  induction coll with
  | nil => simp [mapFindLatest] at h
  | cons e rest ih =>
      cases hr : mapFindLatest rest with
      | none =>
          have he : mapFindLatest (e :: rest) = some e := by
            simp [mapFindLatest, hr]
          rw [he] at h
          have : e = d := by simpa using h
          simp [← this]
      | some b =>
          by_cases hb : docVersion b > docVersion e
          · have he : mapFindLatest (e :: rest) = some b := by
              simp [mapFindLatest, hr, hb]
            rw [he] at h
            have hbd : b = d := by simpa using h
            exact List.mem_cons_of_mem _ (ih (hbd ▸ hr))
          · have he : mapFindLatest (e :: rest) = some e := by
              simp [mapFindLatest, hr, hb]
            rw [he] at h
            have : e = d := by simpa using h
            simp [← this]

theorem mapFindLatest_max (coll : Coll) (d : Doc)
    (h : mapFindLatest coll = some d) :
    ∀ e ∈ coll, docVersion e ≤ docVersion d := by
  induction coll generalizing d with
  | nil => simp [mapFindLatest] at h
  | cons a rest ih =>
      cases hr : mapFindLatest rest with
      | none =>
          have ha : mapFindLatest (a :: rest) = some a := by
            simp [mapFindLatest, hr]
          rw [ha] at h
          have had : a = d := by simpa using h
          have hrest : rest = [] := (mapFindLatest_eq_none rest).mp hr
          subst hrest
          simp [had]
      | some b =>
          by_cases hb : docVersion b > docVersion a
          · have hm : mapFindLatest (a :: rest) = some b := by
              simp [mapFindLatest, hr, hb]
            rw [hm] at h
            have hbd : b = d := by simpa using h
            subst hbd
            intro e he
            rcases List.mem_cons.mp he with rfl | hmem
            · exact le_of_lt hb
            · exact ih b hr e hmem
          · have hm : mapFindLatest (a :: rest) = some a := by
              simp [mapFindLatest, hr, hb]
            rw [hm] at h
            have had : a = d := by simpa using h
            subst had
            intro e he
            rcases List.mem_cons.mp he with rfl | hmem
            · exact le_refl _
            · exact le_trans (ih b hr e hmem) (not_lt.mp hb)

/-! ### Claim theorems -/

/-- C1: every admin-route request whose token query parameter is absent,
or is not a member of the token set, fails with HTTP 401; a token
returned by a successful login with the configured username and password
is accepted by the guard; and an issued token stays in the set across
every operation that touches it (login only ever adds), so it remains
valid for every subsequent request. -/
theorem C1_admin_token_guard
    (adminUsername adminPassword : String) (tokens : List String)
    (t fresh u p : String) :
    require_admin tokens none = .error 401 ∧
    (t ∉ tokens → require_admin tokens (some t) = .error 401) ∧
    (require_admin tokens (some t) = .ok true ↔ t ∈ tokens) ∧
    (u = adminUsername → p = adminPassword →
      (admin_login adminUsername adminPassword tokens u p fresh).2 = .ok fresh ∧
      require_admin (admin_login adminUsername adminPassword tokens u p fresh).1
        (some fresh) = .ok true) ∧
    (t ∈ tokens → t ∈ (admin_login adminUsername adminPassword tokens u p fresh).1) := by
  refine ⟨rfl, ?_, ?_, ?_, ?_⟩
  · intro h
    simp [require_admin, h]
  · constructor
    · intro h
      by_contra hc
      simp [require_admin, hc] at h
    · intro h
      simp [require_admin, h]
  · intro hu hp
    subst hu; subst hp
    constructor
    · simp [admin_login]
    · simp [require_admin, admin_login, List.mem_insert_self]
  · intro h
    unfold admin_login
    by_cases hc : u = adminUsername ∧ p = adminPassword
    · simp only [if_pos hc]
      exact List.mem_insert_of_mem h
    · simpa [if_neg hc] using h

/-- Witness for C1 at concrete inputs: the empty token set rejects a
missing and an unissued token, a successful login with the configured
credentials yields an accepted token, and membership survives a login. -/
theorem C1_admin_token_guard_witness :
    require_admin [] none = .error 401 ∧
    ("t0" ∉ ([] : List String) → require_admin [] (some "t0") = .error 401) ∧
    (require_admin [] (some "t0") = .ok true ↔ "t0" ∈ ([] : List String)) ∧
    ("admin" = "admin" → "changeme" = "changeme" →
      (admin_login "admin" "changeme" [] "admin" "changeme" "f0").2 = .ok "f0" ∧
      require_admin (admin_login "admin" "changeme" [] "admin" "changeme" "f0").1
        (some "f0") = .ok true) ∧
    ("t0" ∈ ([] : List String) →
      "t0" ∈ (admin_login "admin" "changeme" [] "admin" "changeme" "f0").1) :=
  C1_admin_token_guard "admin" "changeme" [] "t0" "f0" "admin" "changeme"

/-- C3: a POI creation payload with a coordinate outside the closed
interval [0,1] is rejected with the 400-class status 422 before any
store call (zero store writes), and the poi collection is unchanged. -/
theorem C3_poi_range_rejected (p : POIPayload) (coll : Coll) (fresh : String)
    (h : p.x_coordinate < 0 ∨ 1 < p.x_coordinate ∨
         p.y_coordinate < 0 ∨ 1 < p.y_coordinate) :
    admin_create_poi p coll fresh = (coll, 0, .error 422) ∧
    400 ≤ 422 ∧ 422 < 500 := by
  have hv : validPOIPayload p = false := by
    unfold validPOIPayload
    rcases h with h | h | h | h
    · simp [decide_eq_false (not_le.mpr h)]
    · simp [decide_eq_false (not_le.mpr h)]
    · simp [decide_eq_false (not_le.mpr h)]
    · simp [decide_eq_false (not_le.mpr h)]
  exact ⟨by simp [admin_create_poi, hv], by norm_num, by norm_num⟩

/-- Witness for C3: a payload with x-coordinate 3/2 is rejected with 422
and leaves an empty poi collection untouched. -/
theorem C3_poi_range_rejected_witness :
    admin_create_poi
        ⟨"Castle", 3/2, 1/2, "marker", none⟩ [] "0123456789abcdef01234567" =
      ([], 0, .error 422) ∧ 400 ≤ 422 ∧ 422 < 500 :=
  C3_poi_range_rejected ⟨"Castle", 3/2, 1/2, "marker", none⟩ []
    "0123456789abcdef01234567" (Or.inr (Or.inl (by norm_num)))

/-- C4: for a valid POI payload (both coordinates in [0,1]) and a fresh
store id, creating via the admin POI route and then listing via the
public POI route yields a list containing the created record, its id
rendered as the id string and every submitted field value intact. -/
theorem C4_create_then_list (p : POIPayload) (coll : Coll) (fresh : String)
    (hvalid : validPOIPayload p = true) :
    ∃ e, e ∈ get_pois (admin_create_poi p coll fresh).1 ∧
      dget e "id" = some (.vStr fresh) ∧
      dget e "name" = some (.vStr p.name) ∧
      dget e "x_coordinate" = some (.vNum p.x_coordinate) ∧
      dget e "y_coordinate" = some (.vNum p.y_coordinate) ∧
      dget e "lore_article_id" = some (optStr p.lore_article_id) ∧
      dget e "icon_type" = some (.vStr p.icon_type) := by
  have hcoll : (admin_create_poi p coll fresh).1 =
      coll ++ [dset (poiDump p) "_id" (Value.vId fresh)] := by
    simp [admin_create_poi, hvalid, create_document]
  refine ⟨poiPublicEntry (dset (poiDump p) "_id" (Value.vId fresh)),
    ?_, ?_, ?_, ?_, ?_, ?_, ?_⟩
  · rw [hcoll]
    simp [get_pois, get_documents]
  · have hid : dget (dset (poiDump p) "_id" (Value.vId fresh)) "_id" =
        some (Value.vId fresh) := dget_dset_self _ _ _
    simp [poiPublicEntry, dget, List.find?, hid, oid_str, pyStr]
  · have hname : dget (dset (poiDump p) "_id" (Value.vId fresh)) "name" =
        some (.vStr p.name) := by
      rw [dget_dset_ne _ _ _ _ (by decide)]
      simp [dget, poiDump, List.find?]
    simp [poiPublicEntry, dget, List.find?, dgetOrNull, hname]
  · have hx : dget (dset (poiDump p) "_id" (Value.vId fresh)) "x_coordinate" =
        some (.vNum p.x_coordinate) := by
      rw [dget_dset_ne _ _ _ _ (by decide)]
      simp [dget, poiDump, List.find?]
    simp [poiPublicEntry, dget, List.find?, dgetOrNull, hx]
  · have hy : dget (dset (poiDump p) "_id" (Value.vId fresh)) "y_coordinate" =
        some (.vNum p.y_coordinate) := by
      rw [dget_dset_ne _ _ _ _ (by decide)]
      simp [dget, poiDump, List.find?]
    simp [poiPublicEntry, dget, List.find?, dgetOrNull, hy]
  · have hl : dget (dset (poiDump p) "_id" (Value.vId fresh)) "lore_article_id" =
        some (optStr p.lore_article_id) := by
      rw [dget_dset_ne _ _ _ _ (by decide)]
      simp [dget, poiDump, List.find?]
    simp [poiPublicEntry, dget, List.find?, dgetOrNull, hl]
  · have hi : dget (dset (poiDump p) "_id" (Value.vId fresh)) "icon_type" =
        some (.vStr p.icon_type) := by
      rw [dget_dset_ne _ _ _ _ (by decide)]
      simp [dget, poiDump, List.find?]
    simp [poiPublicEntry, dget, List.find?, hi]

/-- Witness for C4: a concrete valid payload created into the empty
collection appears in the public list with id string and fields intact. -/
theorem C4_create_then_list_witness :
    ∃ e, e ∈ get_pois (admin_create_poi
        ⟨"Castle", 1/2, 1/4, "city", some "a"⟩ [] "0123456789abcdef01234567").1 ∧
      dget e "id" = some (.vStr "0123456789abcdef01234567") ∧
      dget e "name" = some (.vStr "Castle") ∧
      dget e "x_coordinate" = some (.vNum (1/2)) ∧
      dget e "y_coordinate" = some (.vNum (1/4)) ∧
      dget e "lore_article_id" = some (optStr (some "a")) ∧
      dget e "icon_type" = some (.vStr "city") :=
  C4_create_then_list ⟨"Castle", 1/2, 1/4, "city", some "a"⟩ []
    "0123456789abcdef01234567" (by norm_num [validPOIPayload])

/-- C5: fetching a lore article with a syntactically invalid id yields
the client error 400 (never a server error); with a well-formed id that
matches nothing, 404; with a matching article, the fixed public shape
whose keys are id, title, short_description, main_image_url and
content_body, the id a string. -/
theorem C5_lore_article_fetch (s : String) (coll : Coll) (oid : String)
    (doc : Doc) (idv : String) :
    (isValidOidStr s = false → get_lore_article s coll = .error 400 ∧ 400 < 500) ∧
    (parseObjectId s = some oid → find_one_by_id coll oid = none →
      get_lore_article s coll = .error 404) ∧
    (parseObjectId s = some oid → find_one_by_id coll oid = some doc →
      dget doc "_id" = some (Value.vId idv) →
      ∃ d', get_lore_article s coll = .ok d' ∧
        d'.map Prod.fst = ["id", "title", "short_description",
                           "main_image_url", "content_body"] ∧
        dget d' "id" = some (.vStr idv)) := by
  refine ⟨?_, ?_, ?_⟩
  · intro h
    exact ⟨by simp [get_lore_article, parseObjectId, h], by norm_num⟩
  · intro hp hf
    simp [get_lore_article, hp, hf]
  · intro hp hf hid
    have hne : ¬ (doc = []) := by
      intro hc
      rw [hc] at hid
      simp [dget] at hid
    have hpub : doc_to_public doc =
        dset (dremove doc "_id") "id" (.vStr idv) := by
      unfold doc_to_public
      rw [if_neg hne, hid]
      simp [truthy, pyStr]
    have hroute : get_lore_article s coll =
        .ok [("id", dgetOrNull (doc_to_public doc) "id"),
             ("title", dgetOrNull (doc_to_public doc) "title"),
             ("short_description", dgetOrNull (doc_to_public doc) "short_description"),
             ("main_image_url", dgetOrNull (doc_to_public doc) "main_image_url"),
             ("content_body", dgetOrNull (doc_to_public doc) "content_body")] := by
      simp [get_lore_article, hp, hf]
    have hidv : dgetOrNull (doc_to_public doc) "id" = .vStr idv := by
      rw [hpub]
      simp [dgetOrNull, dget_dset_self]
    exact ⟨_, hroute, by simp, by simp [dget, List.find?, hidv]⟩

/-- Witness for C5 at concrete inputs: a malformed id yields 400, a
well-formed unmatched id yields 404, and a matched article yields the
public shape. -/
theorem C5_lore_article_fetch_witness :
    (get_lore_article "not-an-id" [] = .error 400 ∧ 400 < 500) ∧
    get_lore_article "0123456789abcdef01234567" [] = .error 404 ∧
    (∃ d', get_lore_article "0123456789abcdef01234567"
        [[("_id", Value.vId "0123456789abcdef01234567"),
          ("title", Value.vStr "T"), ("short_description", Value.vStr "S"),
          ("content_body", Value.vStr "B")]] = .ok d' ∧
      d'.map Prod.fst = ["id", "title", "short_description",
                         "main_image_url", "content_body"] ∧
      dget d' "id" = some (.vStr "0123456789abcdef01234567")) :=
  ⟨(C5_lore_article_fetch "not-an-id" [] "" [] "").1 (by decide),
   (C5_lore_article_fetch "0123456789abcdef01234567" []
      "0123456789abcdef01234567" [] "").2.1 (by decide) rfl,
   (C5_lore_article_fetch "0123456789abcdef01234567"
      [[("_id", Value.vId "0123456789abcdef01234567"),
        ("title", Value.vStr "T"), ("short_description", Value.vStr "S"),
        ("content_body", Value.vStr "B")]]
      "0123456789abcdef01234567"
      [("_id", Value.vId "0123456789abcdef01234567"),
       ("title", Value.vStr "T"), ("short_description", Value.vStr "S"),
       ("content_body", Value.vStr "B")]
      "0123456789abcdef01234567").2.2 (by decide) (by decide) (by decide)⟩

/-- C6 (code defect): because main.py registers the dynamic article route
before the literal search route, every request GET /api/lore/search is
dispatched to the article handler and fails with 400 — the claimed search
behavior is unreachable.  The dead handler itself would return at most 20
results. -/
theorem C6_lore_search_shadowed (q : String) (coll : Coll) :
    apiLoreGet "search" q coll = .error 400 ∧
    (search_lore q coll).length ≤ 20 := by
  constructor
  · have hp : parseObjectId "search" = none := by decide
    simp [apiLoreGet, matchLoreRoute, get_lore_article, hp]
  · simp only [search_lore, List.length_map]
    exact List.length_take_le _ _

/-- C7: an update whose payload has every field absent or None answers
updated: false with zero store writes and an unchanged collection, for
all three update routes; and in general the merge replaces only the
matched document, sets exactly the provided keys and leaves every other
key of the document at its prior value. -/
theorem C7_empty_update_noop_and_merge (pid oid : String) (coll : Coll)
    (hpid : parseObjectId pid = some oid) :
    (∀ u : POIUpdate, u.name = none → u.x_coordinate = none →
      u.y_coordinate = none → u.icon_type = none → u.lore_article_id = none →
      admin_update_poi pid u coll = (coll, 0, .ok .updatedFalse)) ∧
    (∀ u : LoreUpdate, u.title = none → u.short_description = none →
      u.main_image_url = none → u.content_body = none →
      u.category_ids = none → u.slug = none →
      admin_update_lore pid u coll = (coll, 0, .ok .updatedFalse)) ∧
    (∀ u : CategoryUpdate, u.name = none → u.slug = none →
      u.description = none →
      admin_update_category pid u coll = (coll, 0, .ok .updatedFalse)) ∧
    (∀ fields d0, fields ≠ [] → find_one_by_id coll oid = some d0 →
      ∃ pre post, coll = pre ++ d0 :: post ∧
        (update_route pid fields coll).1 = pre ++ mergeDoc d0 fields :: post) ∧
    (∀ (d fields : Doc) (k : String), k ∉ fields.map Prod.fst →
      dget (mergeDoc d fields) k = dget d k) ∧
    (∀ (d fields : Doc) (k : String) (v : Value),
      (fields.map Prod.fst).Nodup → (k, v) ∈ fields →
      dget (mergeDoc d fields) k = some v) := by
  have hempty : ∀ fs : Doc, fs = [] →
      update_route pid fs coll = (coll, 0, .ok .updatedFalse) := by
    intro fs hfs
    subst hfs
    simp [update_route, hpid]
  refine ⟨?_, ?_, ?_, ?_, ?_, ?_⟩
  · intro u h1 h2 h3 h4 h5
    have hfs : updFieldsPOI u = [] := by
      simp [updFieldsPOI, pickField, h1, h2, h3, h4, h5]
    simpa [admin_update_poi] using hempty _ hfs
  · intro u h1 h2 h3 h4 h5 h6
    have hfs : updFieldsLore u = [] := by
      simp [updFieldsLore, pickField, h1, h2, h3, h4, h5, h6]
    simpa [admin_update_lore] using hempty _ hfs
  · intro u h1 h2 h3
    have hfs : updFieldsCategory u = [] := by
      simp [updFieldsCategory, pickField, h1, h2, h3]
    simpa [admin_update_category] using hempty _ hfs
  · intro fields d0 hf hfind
    obtain ⟨pre, post, hc, hu, _⟩ := update_one_shape coll oid fields d0 hfind
    exact ⟨pre, post, hc, by simp [update_route, hpid, hf, hu]⟩
  · intro d fields k hk
    exact dget_mergeDoc_not_mem fields d k hk
  · intro d fields k v hnd hm
    exact dget_mergeDoc_mem fields d hnd k v hm

/-- Witness for C7 at a concrete id and one-document collection. -/
theorem C7_empty_update_noop_and_merge_witness :
    (∀ u : POIUpdate, u.name = none → u.x_coordinate = none →
      u.y_coordinate = none → u.icon_type = none → u.lore_article_id = none →
      admin_update_poi "0123456789abcdef01234567" u
          [[("_id", Value.vId "0123456789abcdef01234567"),
            ("name", Value.vStr "Castle")]] =
        ([[("_id", Value.vId "0123456789abcdef01234567"),
           ("name", Value.vStr "Castle")]], 0, .ok .updatedFalse)) ∧
    (∀ u : LoreUpdate, u.title = none → u.short_description = none →
      u.main_image_url = none → u.content_body = none →
      u.category_ids = none → u.slug = none →
      admin_update_lore "0123456789abcdef01234567" u
          [[("_id", Value.vId "0123456789abcdef01234567"),
            ("name", Value.vStr "Castle")]] =
        ([[("_id", Value.vId "0123456789abcdef01234567"),
           ("name", Value.vStr "Castle")]], 0, .ok .updatedFalse)) ∧
    (∀ u : CategoryUpdate, u.name = none → u.slug = none →
      u.description = none →
      admin_update_category "0123456789abcdef01234567" u
          [[("_id", Value.vId "0123456789abcdef01234567"),
            ("name", Value.vStr "Castle")]] =
        ([[("_id", Value.vId "0123456789abcdef01234567"),
           ("name", Value.vStr "Castle")]], 0, .ok .updatedFalse)) ∧
    (∀ fields d0, fields ≠ [] →
      find_one_by_id [[("_id", Value.vId "0123456789abcdef01234567"),
        ("name", Value.vStr "Castle")]] "0123456789abcdef01234567" = some d0 →
      ∃ pre post,
        [[("_id", Value.vId "0123456789abcdef01234567"),
          ("name", Value.vStr "Castle")]] = pre ++ d0 :: post ∧
        (update_route "0123456789abcdef01234567" fields
          [[("_id", Value.vId "0123456789abcdef01234567"),
            ("name", Value.vStr "Castle")]]).1 =
          pre ++ mergeDoc d0 fields :: post) ∧
    (∀ (d fields : Doc) (k : String), k ∉ fields.map Prod.fst →
      dget (mergeDoc d fields) k = dget d k) ∧
    (∀ (d fields : Doc) (k : String) (v : Value),
      (fields.map Prod.fst).Nodup → (k, v) ∈ fields →
      dget (mergeDoc d fields) k = some v) :=
  C7_empty_update_noop_and_merge "0123456789abcdef01234567"
    "0123456789abcdef01234567"
    [[("_id", Value.vId "0123456789abcdef01234567"),
      ("name", Value.vStr "Castle")]] (by decide)

/-- C8: with a well-formed id, the delete routes acknowledge with
deleted: true whether or not a matching document exists, and (documents
having unique ids) deleting twice leaves the same collection and the
same response as deleting once; the three admin delete handlers share
this body. -/
theorem C8_delete_idempotent_ack (pid oid : String) (coll : Coll)
    (hpid : parseObjectId pid = some oid)
    (huniq : matchCount coll oid ≤ 1) :
    (delete_route pid coll).2 = .ok [("deleted", .vBool true)] ∧
    delete_route pid (delete_route pid coll).1 = delete_route pid coll ∧
    admin_delete_poi pid coll = delete_route pid coll ∧
    admin_delete_lore pid coll = delete_route pid coll ∧
    admin_delete_category pid coll = delete_route pid coll := by
  refine ⟨by simp [delete_route, hpid], ?_, rfl, rfl, rfl⟩
  simp [delete_route, hpid, delete_one_idem coll oid huniq]

/-- Witness for C8: deleting a present id from a one-document collection
acknowledges and is idempotent. -/
theorem C8_delete_idempotent_ack_witness :
    (delete_route "0123456789abcdef01234567"
        [[("_id", Value.vId "0123456789abcdef01234567")]]).2 =
      .ok [("deleted", .vBool true)] ∧
    delete_route "0123456789abcdef01234567"
        (delete_route "0123456789abcdef01234567"
          [[("_id", Value.vId "0123456789abcdef01234567")]]).1 =
      delete_route "0123456789abcdef01234567"
        [[("_id", Value.vId "0123456789abcdef01234567")]] ∧
    admin_delete_poi "0123456789abcdef01234567"
        [[("_id", Value.vId "0123456789abcdef01234567")]] =
      delete_route "0123456789abcdef01234567"
        [[("_id", Value.vId "0123456789abcdef01234567")]] ∧
    admin_delete_lore "0123456789abcdef01234567"
        [[("_id", Value.vId "0123456789abcdef01234567")]] =
      delete_route "0123456789abcdef01234567"
        [[("_id", Value.vId "0123456789abcdef01234567")]] ∧
    admin_delete_category "0123456789abcdef01234567"
        [[("_id", Value.vId "0123456789abcdef01234567")]] =
      delete_route "0123456789abcdef01234567"
        [[("_id", Value.vId "0123456789abcdef01234567")]] :=
  C8_delete_idempotent_ack "0123456789abcdef01234567"
    "0123456789abcdef01234567"
    [[("_id", Value.vId "0123456789abcdef01234567")]] (by decide) (by decide)

/-- C10: an update with a well-formed id that matches no stored document
and at least one provided field completes without error, answers a null
body (not 404), issues exactly the one update store call, and the
collection is unchanged (no document is created); likewise through the
three admin update handlers. -/
theorem C10_update_missing_id_null (pid oid : String) (fields : Doc)
    (coll : Coll) (hpid : parseObjectId pid = some oid)
    (hmiss : ∀ d ∈ coll, dget d "_id" ≠ some (Value.vId oid))
    (hne : fields ≠ []) :
    update_route pid fields coll = (coll, 1, .ok (.body none)) ∧
    (∀ u : POIUpdate, updFieldsPOI u ≠ [] →
      admin_update_poi pid u coll = (coll, 1, .ok (.body none))) ∧
    (∀ u : LoreUpdate, updFieldsLore u ≠ [] →
      admin_update_lore pid u coll = (coll, 1, .ok (.body none))) ∧
    (∀ u : CategoryUpdate, updFieldsCategory u ≠ [] →
      admin_update_category pid u coll = (coll, 1, .ok (.body none))) := by
  have key : ∀ fs : Doc, fs ≠ [] →
      update_route pid fs coll = (coll, 1, .ok (.body none)) := by
    intro fs hfs
    have hupd : update_one coll oid fs = coll := update_one_no_match _ _ _ hmiss
    have hfind : find_one_by_id coll oid = none := find_one_by_id_eq_none _ _ hmiss
    simp [update_route, hpid, hfs, hupd, hfind, docToPublicOpt]
  exact ⟨key fields hne,
    fun u hu => by simpa [admin_update_poi] using key _ hu,
    fun u hu => by simpa [admin_update_lore] using key _ hu,
    fun u hu => by simpa [admin_update_category] using key _ hu⟩

/-- Witness for C10: a nonempty update of a missing id on a collection
holding one unrelated document returns null and changes nothing. -/
theorem C10_update_missing_id_null_witness :
    update_route "0123456789abcdef01234567" [("name", Value.vStr "N")]
        [[("_id", Value.vId "aaaaaaaaaaaaaaaaaaaaaaaa")]] =
      ([[("_id", Value.vId "aaaaaaaaaaaaaaaaaaaaaaaa")]], 1, .ok (.body none)) ∧
    (∀ u : POIUpdate, updFieldsPOI u ≠ [] →
      admin_update_poi "0123456789abcdef01234567" u
          [[("_id", Value.vId "aaaaaaaaaaaaaaaaaaaaaaaa")]] =
        ([[("_id", Value.vId "aaaaaaaaaaaaaaaaaaaaaaaa")]], 1, .ok (.body none))) ∧
    (∀ u : LoreUpdate, updFieldsLore u ≠ [] →
      admin_update_lore "0123456789abcdef01234567" u
          [[("_id", Value.vId "aaaaaaaaaaaaaaaaaaaaaaaa")]] =
        ([[("_id", Value.vId "aaaaaaaaaaaaaaaaaaaaaaaa")]], 1, .ok (.body none))) ∧
    (∀ u : CategoryUpdate, updFieldsCategory u ≠ [] →
      admin_update_category "0123456789abcdef01234567" u
          [[("_id", Value.vId "aaaaaaaaaaaaaaaaaaaaaaaa")]] =
        ([[("_id", Value.vId "aaaaaaaaaaaaaaaaaaaaaaaa")]], 1, .ok (.body none))) :=
  C10_update_missing_id_null "0123456789abcdef01234567"
    "0123456789abcdef01234567" [("name", Value.vStr "N")]
    [[("_id", Value.vId "aaaaaaaaaaaaaaaaaaaaaaaa")]]
    (by decide) (by decide) (by decide)

/-- C9: a document carrying a store-assigned id reshaped by
`doc_to_public` never exposes the internal key: the output binds no
value to the internal id key and binds the public id key to the id
rendered as a string; and every entry of the public POI list likewise
has no internal id key and a string id. -/
theorem C9_internal_id_never_exposed (d : Doc) (idv : String) (coll : Coll) :
    (dget d "_id" = some (Value.vId idv) →
      dget (doc_to_public d) "_id" = none ∧
      dget (doc_to_public d) "id" = some (.vStr idv)) ∧
    (∀ e ∈ get_pois coll, dget e "_id" = none ∧
      ∃ s, dget e "id" = some (.vStr s)) := by
  constructor
  · intro hid
    have hne : ¬ (d = []) := by
      intro hc
      rw [hc] at hid
      simp [dget] at hid
    have hpub : doc_to_public d = dset (dremove d "_id") "id" (.vStr idv) := by
      unfold doc_to_public
      rw [if_neg hne, hid]
      simp [truthy, pyStr]
    rw [hpub]
    constructor
    · rw [dget_dset_ne _ _ _ _ (by decide)]
      exact dget_dremove_self d "_id"
    · exact dget_dset_self _ _ _
  · intro e he
    simp only [get_pois, get_documents, List.mem_map] at he
    obtain ⟨p, _, rfl⟩ := he
    exact ⟨by simp [poiPublicEntry, dget, List.find?],
      ⟨oid_str (dget p "_id"), by simp [poiPublicEntry, dget, List.find?]⟩⟩

/-- Witness for C9: a concrete stored document and a one-document POI
collection expose only the public string id. -/
theorem C9_internal_id_never_exposed_witness :
    (dget [("_id", Value.vId "0123456789abcdef01234567"),
           ("name", Value.vStr "Castle")] "_id" =
        some (Value.vId "0123456789abcdef01234567") →
      dget (doc_to_public [("_id", Value.vId "0123456789abcdef01234567"),
        ("name", Value.vStr "Castle")]) "_id" = none ∧
      dget (doc_to_public [("_id", Value.vId "0123456789abcdef01234567"),
        ("name", Value.vStr "Castle")]) "id" =
        some (.vStr "0123456789abcdef01234567")) ∧
    (∀ e ∈ get_pois [[("_id", Value.vId "0123456789abcdef01234567"),
        ("name", Value.vStr "Castle")]],
      dget e "_id" = none ∧ ∃ s, dget e "id" = some (.vStr s)) :=
  C9_internal_id_never_exposed
    [("_id", Value.vId "0123456789abcdef01234567"),
     ("name", Value.vStr "Castle")] "0123456789abcdef01234567"
    [[("_id", Value.vId "0123456789abcdef01234567"),
      ("name", Value.vStr "Castle")]]

/-- C2: when every stored map asset has an integer version and the fresh
id is new, the map create route appends one new document — existing
documents are neither modified nor deleted — whose version is the
current maximum plus one (1 on an empty collection), and returns its
reshaped form; both map fetch routes return the reshaped document of
maximal version, or null on an empty collection. -/
theorem C2_map_version_invariant (p : MapAssetUpdate) (coll : Coll)
    (fresh : String)
    (hv : ∀ d ∈ coll, ∃ n : Int, dget d "version" = some (.vInt n))
    (hfresh : ∀ d ∈ coll, dget d "_id" ≠ some (Value.vId fresh)) :
    (∃ nd, (set_map p coll fresh).1 = coll ++ [nd] ∧
      dget nd "version" = some (.vInt (versionNext coll)) ∧
      (coll = [] → versionNext coll = 1) ∧
      (∀ c, mapFindLatest coll = some c →
        (∀ e ∈ coll, docVersion e ≤ docVersion c) ∧
        versionNext coll = docVersion c + 1) ∧
      (set_map p coll fresh).2 = some (doc_to_public nd)) ∧
    (coll = [] → public_get_map coll = none ∧ get_map coll = none) ∧
    (∀ c, mapFindLatest coll = some c → c ∈ coll ∧
      (∀ e ∈ coll, docVersion e ≤ docVersion c) ∧
      public_get_map coll = some (doc_to_public c) ∧
      get_map coll = some (doc_to_public c)) := by
  have _hv := hv
  refine ⟨⟨dset (mapAssetDump p (versionNext coll)) "_id" (Value.vId fresh),
    ?_, ?_, ?_, ?_, ?_⟩, ?_, ?_⟩
  · simp [set_map, create_document]
  · rw [dget_dset_ne _ _ _ _ (by decide)]
    simp [dget, mapAssetDump, List.find?]
  · intro hc
    subst hc
    rfl
  · intro c hcl
    exact ⟨mapFindLatest_max coll c hcl, by simp [versionNext, hcl]⟩
  · have hnd : dget (dset (mapAssetDump p (versionNext coll)) "_id"
        (Value.vId fresh)) "_id" = some (Value.vId fresh) :=
      dget_dset_self _ _ _
    have hfind := find_one_by_id_append_new coll _ fresh hfresh hnd
    simp [set_map, create_document, hfind, docToPublicOpt]
  · intro hc
    subst hc
    exact ⟨rfl, rfl⟩
  · intro c hcl
    exact ⟨mapFindLatest_mem _ _ hcl, mapFindLatest_max _ _ hcl,
      by simp [public_get_map, hcl], by simp [get_map, hcl]⟩

/-- Witness for C2 at a one-document collection of version 1 and a fresh
id: the insert gets version 2 and the fetch routes return the version-1
document until then. -/
theorem C2_map_version_invariant_witness :
    (∃ nd, (set_map ⟨"u2", none, none⟩
        [[("image_url", Value.vStr "u1"), ("version", Value.vInt 1),
          ("_id", Value.vId "aaaaaaaaaaaaaaaaaaaaaaaa")]]
        "bbbbbbbbbbbbbbbbbbbbbbbb").1 =
        [[("image_url", Value.vStr "u1"), ("version", Value.vInt 1),
          ("_id", Value.vId "aaaaaaaaaaaaaaaaaaaaaaaa")]] ++ [nd] ∧
      dget nd "version" = some (.vInt (versionNext
        [[("image_url", Value.vStr "u1"), ("version", Value.vInt 1),
          ("_id", Value.vId "aaaaaaaaaaaaaaaaaaaaaaaa")]])) ∧
      ([[("image_url", Value.vStr "u1"), ("version", Value.vInt 1),
         ("_id", Value.vId "aaaaaaaaaaaaaaaaaaaaaaaa")]] = ([] : Coll) →
        versionNext [[("image_url", Value.vStr "u1"), ("version", Value.vInt 1),
          ("_id", Value.vId "aaaaaaaaaaaaaaaaaaaaaaaa")]] = 1) ∧
      (∀ c, mapFindLatest [[("image_url", Value.vStr "u1"),
          ("version", Value.vInt 1),
          ("_id", Value.vId "aaaaaaaaaaaaaaaaaaaaaaaa")]] = some c →
        (∀ e ∈ [[("image_url", Value.vStr "u1"), ("version", Value.vInt 1),
            ("_id", Value.vId "aaaaaaaaaaaaaaaaaaaaaaaa")]],
          docVersion e ≤ docVersion c) ∧
        versionNext [[("image_url", Value.vStr "u1"), ("version", Value.vInt 1),
          ("_id", Value.vId "aaaaaaaaaaaaaaaaaaaaaaaa")]] = docVersion c + 1) ∧
      (set_map ⟨"u2", none, none⟩
        [[("image_url", Value.vStr "u1"), ("version", Value.vInt 1),
          ("_id", Value.vId "aaaaaaaaaaaaaaaaaaaaaaaa")]]
        "bbbbbbbbbbbbbbbbbbbbbbbb").2 = some (doc_to_public nd)) ∧
    ([[("image_url", Value.vStr "u1"), ("version", Value.vInt 1),
       ("_id", Value.vId "aaaaaaaaaaaaaaaaaaaaaaaa")]] = ([] : Coll) →
      public_get_map [[("image_url", Value.vStr "u1"), ("version", Value.vInt 1),
        ("_id", Value.vId "aaaaaaaaaaaaaaaaaaaaaaaa")]] = none ∧
      get_map [[("image_url", Value.vStr "u1"), ("version", Value.vInt 1),
        ("_id", Value.vId "aaaaaaaaaaaaaaaaaaaaaaaa")]] = none) ∧
    (∀ c, mapFindLatest [[("image_url", Value.vStr "u1"),
        ("version", Value.vInt 1),
        ("_id", Value.vId "aaaaaaaaaaaaaaaaaaaaaaaa")]] = some c →
      c ∈ [[("image_url", Value.vStr "u1"), ("version", Value.vInt 1),
        ("_id", Value.vId "aaaaaaaaaaaaaaaaaaaaaaaa")]] ∧
      (∀ e ∈ [[("image_url", Value.vStr "u1"), ("version", Value.vInt 1),
          ("_id", Value.vId "aaaaaaaaaaaaaaaaaaaaaaaa")]],
        docVersion e ≤ docVersion c) ∧
      public_get_map [[("image_url", Value.vStr "u1"), ("version", Value.vInt 1),
        ("_id", Value.vId "aaaaaaaaaaaaaaaaaaaaaaaa")]] = some (doc_to_public c) ∧
      get_map [[("image_url", Value.vStr "u1"), ("version", Value.vInt 1),
        ("_id", Value.vId "aaaaaaaaaaaaaaaaaaaaaaaa")]] = some (doc_to_public c)) :=
  C2_map_version_invariant ⟨"u2", none, none⟩
    [[("image_url", Value.vStr "u1"), ("version", Value.vInt 1),
      ("_id", Value.vId "aaaaaaaaaaaaaaaaaaaaaaaa")]]
    "bbbbbbbbbbbbbbbbbbbbbbbb"
    (by intro d hd; refine ⟨1, ?_⟩; simp at hd; simp [hd, dget, List.find?])
    (by decide)

end WorldMap
